import Mathlib

/-!
Verification of `fetchData.go` from the CY_project repository: a concurrent
batch-fetch pipeline that pulls a paginated ArcGIS feature dataset and writes
it to a CSV file.  The Go source is shallowly embedded below: pure helpers
(`formatValue`, the CSV row construction, the offset generation) become Lean
functions; the HTTP layer is modelled by an explicit response datatype; the
concurrent accumulation is modelled by permutations of the per-offset record
blocks (each block is appended atomically under the mutex).
-/

namespace CYProject

/-- Model of a decoded JSON attribute value (`interface\x7b\x7d` produced by
`encoding/json`): a string, a number (float64 in Go; modelled as `Int`, exact
for integer-valued JSON numbers of magnitude below 2^53), a boolean, or the
nil interface value for JSON null / absent map keys. -/
inductive GoValue where
  | str (s : String)
  | num (x : Int)
  | boolean (b : Bool)
  | nil
deriving DecidableEq, Repr

/-- An Attribute Record: the `map[string]interface\x7b\x7d` of one feature,
modelled as an association list over field names. -/
def Record := List (String × GoValue)

/-- Go map indexing `record[key]`: a missing key yields the zero value of
`interface\x7b\x7d`, the nil interface. -/
def mapGet (r : Record) (k : String) : GoValue :=
  match List.lookup k r with
  | some v => v
  | none => GoValue.nil

/-- Strip trailing `0` characters from a digit list. -/
def stripTrailingZeros (ds : List Char) : List Char :=
  (List.dropWhile (fun c => c = '0') ds.reverse).reverse

/-- Left-pad the decimal digits of `n` with zeros to width `w`. -/
def padZeros (w : Nat) (n : Nat) : String :=
  let s := toString n
  String.mk (List.replicate (w - s.length) '0') ++ s

/-- Models `fmt.Sprintf("%v", f)` for a float64 `f`, which Go renders with
`strconv.FormatFloat(f, 'g', -1, 64)` (shortest round-tripping form).  The
model covers the float64 values that are exact integers of magnitude below
2^53, for which the shortest decimal digits are the decimal digits of the
integer with trailing zeros stripped; `'g'` then uses scientific `%e` form
exactly when the decimal exponent is at least 6 (the shortest-form `eprec`),
with an exponent of at least two digits. -/
def goFormatG (x : Int) : String :=
  if x = 0 then "0"
  else
    let sign := if x < 0 then "-" else ""
    let ds := (toString x.natAbs).toList
    let exp := ds.length - 1
    if exp < 6 then
      sign ++ String.mk ds
    else
      let sig := stripTrailingZeros ds
      let mantissa :=
        match sig with
        | [] => "0"
        | c :: rest =>
          String.mk [c] ++ (if rest.isEmpty then "" else "." ++ String.mk rest)
      sign ++ mantissa ++ "e+" ++ padZeros 2 exp

/-- Models `fmt.Sprintf("%v", value)` on the decoded JSON value shapes:
a string prints as itself, a float64 via `%g` shortest form, a bool as
`true`/`false`, and the nil interface as the literal `<nil>`. -/
def goSprintV : GoValue → String
  | GoValue.str s => s
  | GoValue.num x => goFormatG x
  | GoValue.boolean b => if b then "true" else "false"
  | GoValue.nil => "<nil>"

/-- Civil (proleptic Gregorian) date from days since the Unix epoch, the
calendar computation performed by Go's `time` package for `t.UTC()`:
returns `(year, month, day)`. -/
def civilFromDays (days : Int) : Int × Nat × Nat :=
  let z := days + 719468
  let era := z.fdiv 146097
  let doe := (z - era * 146097).toNat
  let yoe := (doe - doe / 1460 + doe / 36524 - doe / 146096) / 365
  let y := (yoe : Int) + era * 400
  let doy := doe - (365 * yoe + yoe / 4 - yoe / 100)
  let mp := (5 * doy + 2) / 153
  let d := doy - (153 * mp + 2) / 5 + 1
  let m := if mp < 10 then mp + 3 else mp - 9
  (if m ≤ 2 then y + 1 else y, m, d)

/-- Four-digit zero-padded year as Go's layout element `2006` renders it. -/
def pad4Year (y : Int) : String :=
  if y < 0 then "-" ++ padZeros 4 y.natAbs else padZeros 4 y.toNat

/-- Models `time.Unix(sec, 0).UTC().Format("2006/01/02 15:04:05+00")`:
the instant `sec` seconds after the Unix epoch rendered in UTC in the fixed
layout `YYYY/MM/DD HH:MM:SS+00` (the trailing `+00` is literal text: Go
time-zone layout elements begin with `-` or `Z`, so `+00` is copied
verbatim). -/
def goDateTimeString (sec : Int) : String :=
  let days := sec.fdiv 86400
  let sod := (sec - days * 86400).toNat
  let c := civilFromDays days
  pad4Year c.1 ++ "/" ++ padZeros 2 c.2.1 ++ "/" ++ padZeros 2 c.2.2 ++ " " ++
    padZeros 2 (sod / 3600) ++ ":" ++ padZeros 2 (sod % 3600 / 60) ++ ":" ++
    padZeros 2 (sod % 60) ++ "+00"

/-- Step 3 of `formatValue`: generic stringification via `fmt.Sprintf("%v", value)`,
collapsing a result that is literally `<nil>` to the empty string. -/
def sprintvCollapse (value : GoValue) : String :=
  let s := goSprintV value
  if s = "<nil>" then "" else s

/-- Embedding of `formatValue(key string, value interface\x7b\x7d) string`:
nil values map to the empty string; on the two date columns a float64 value
is treated as epoch milliseconds (`0` meaning no date), converted to whole
seconds by `int64(timestamp / 1000)` — equal to truncating integer division
for integer-valued timestamps of magnitude below 2^53 — and formatted in UTC;
everything else is generically stringified with the `<nil>` collapse. -/
def formatValue (key : String) (value : GoValue) : String :=
  if value = GoValue.nil then ""
  else if key == "Action_Filed" || key == "Sale_Date" then
    match value with
    | GoValue.num timestamp =>
      if timestamp = 0 then "" else goDateTimeString (timestamp.tdiv 1000)
    | _ => sprintvCollapse value
  else sprintvCollapse value

/-! Constants of `fetchData.go`. -/

/-- Page size constant `batchSize = 1000`. -/
def batchSize : Nat := 1000

/-- Safety ceiling constant `maxBatches = 300`. -/
def maxBatches : Nat := 300

/-- Output directory constant. -/
def outputDir : String := "data"

/-- Output file-name constant. -/
def outputFile : String := "Louisville_Metro_KY_-_Property_Foreclosures.csv"

/-- The path `outputDir + "/" + outputFile` the Writer creates. -/
def outputPath : String := outputDir ++ "/" ++ outputFile

/-- The Canonical Column Schema: the fixed `csvHeaders` slice, in its defined
order. -/
def csvHeaders : List String :=
  ["House_Nr", "Dir", "Street_Name", "St_Type", "Post_Dir", "Zip", "L_S", "CD",
   "Neighborhood", "Full_Parcel_ID", "Census_Tract", "Action_Filed", "Case_",
   "Case_Style", "Sale_Date", "Sale_Price", "Purchaser", "ObjectId"]

/-! The Remote Query Client (`fetchBatch`). -/

/-- One feature of the wire-format JSON response; the Go `Feature` struct
decodes only the `attributes` member, so the geometry payload (suppressed by
the query but possible on the wire) is dropped at decode time. -/
structure Feature where
  attributes : Record
  geometry : Option GoValue := none

/-- Decoded `QueryResult`: the response's feature list. -/
structure QueryResult where
  features : List Feature

/-- The environment's answer to the HTTP GET issued for one offset: either a
transport failure of `client.Do`, or a reply with a status code and a body
whose JSON decode into `QueryResult` may fail. -/
inductive HttpResponse where
  | netError (msg : String)
  | reply (statusCode : Nat) (body : Except String QueryResult)

/-- The distinct failure signals of `fetchBatch`: transport error, non-200
status (the formatted `status code %d` error), or JSON decode error. -/
inductive FetchError where
  | network (msg : String)
  | status (code : Nat)
  | decode (msg : String)
deriving DecidableEq

/-- Embedding of `fetchBatch(offset int, client *http.Client)`: the request
carries `resultOffset = offset` and `resultRecordCount = batchSize`, so the
environment is a function from the offset to the response; the call fails on
transport error, on any status other than 200, or on a malformed body, and
otherwise returns the per-feature attribute mappings of the feature list. -/
def fetchBatch (offset : Nat) (service : Nat → HttpResponse) :
    Except FetchError (List Record) :=
  match service offset with
  | HttpResponse.netError m => Except.error (FetchError.network m)
  | HttpResponse.reply code body =>
    if code ≠ 200 then Except.error (FetchError.status code)
    else
      match body with
      | Except.error m => Except.error (FetchError.decode m)
      | Except.ok result =>
        Except.ok (result.features.map Feature.attributes)

/-! The Fetch Coordinator (`main`, lines 115-156). -/

/-- The offsets fed into the `offsets` channel by `main`:
`i * batchSize` for `i = 0, …, maxBatches-1`, and nothing else — the feed
loop runs independently of any fetch outcome. -/
def dispatchedOffsets : List Nat :=
  (List.range maxBatches).map (fun i => i * batchSize)

/-- The worker loop body over the remaining offsets of the channel, with the
accumulated dataset threaded through: a fetch error is logged and skipped
(`continue`), an empty page is skipped (`continue`), and otherwise the
records are appended under the mutex.  No branch breaks out of the
`for offset := range offsets` loop. -/
def workerLoop (fetch : Nat → Except FetchError (List Record)) :
    List Nat → List Record → List Record
  | [], acc => acc
  | o :: rest, acc =>
    match fetch o with
    | Except.error _ => workerLoop fetch rest acc
    | Except.ok records =>
      if records.length = 0 then workerLoop fetch rest acc
      else workerLoop fetch rest (acc ++ records)

/-- The offsets a worker consumes from the channel: every branch of the loop
body ends in `continue`, never `break`, so each offset of the feed is taken
regardless of the fetch outcome at it. -/
def consumedOffsets (fetch : Nat → Except FetchError (List Record)) :
    List Nat → List Nat
  | [] => []
  | o :: rest =>
    match fetch o with
    | Except.error _ => o :: consumedOffsets fetch rest
    | Except.ok records =>
      if records.length = 0 then o :: consumedOffsets fetch rest
      else o :: consumedOffsets fetch rest

/-! The Dataset Writer (`main`, lines 158-199). -/

/-- One output row for a record: `len(csvHeaders)` cells, the i-th being
`formatValue(csvHeaders[i], record[csvHeaders[i]])`. -/
def rowFor (record : Record) : List String :=
  csvHeaders.map (fun key => formatValue key (mapGet record key))

/-- The data rows the Writer emits: one per record of the accumulated
dataset, in order. -/
def dataRows (allData : List Record) : List (List String) :=
  allData.map rowFor

/-- The output phase of `main`: always prints the fetched-count line; when
records exist, writes the CSV (header row first, then the data rows) and
prints the saved-to line; otherwise writes no file and prints the no-data
notice.  Returns the file content (if a file is written) and the status
lines. -/
def mainOutput (allData : List Record) :
    Option (List (List String)) × List String :=
  let fetchedMsg := "Fetched " ++ toString allData.length ++ " total records."
  if allData.length > 0 then
    (some (csvHeaders :: dataRows allData),
      [fetchedMsg, "✅ Data saved to " ++ outputPath])
  else
    (none, [fetchedMsg, "⚠️ No data was retrieved from the API."])

/-- A sample Attribute Record used to instantiate theorems on concrete
input. -/
def sampleRecord : Record := [("Zip", GoValue.str "40202")]

/-! Helper lemmas shared by the claim theorems. -/

/-- Either branch of the `<nil>` collapse of step 3 yields the empty string
or the generic stringification itself. -/
theorem sprintvCollapse_cases (v : GoValue) :
    sprintvCollapse v = "" ∨ sprintvCollapse v = goSprintV v := by
  unfold sprintvCollapse
  by_cases h : goSprintV v = "<nil>" <;> simp [h]

/-- The worker loop consumes every offset of the channel, whatever the fetch
returns: no branch of the loop body breaks out. -/
theorem consumedOffsets_eq (fetch : Nat → Except FetchError (List Record)) :
    ∀ l : List Nat, consumedOffsets fetch l = l := by
  intro l
  induction l with
  | nil => rfl
  | cons o rest ih =>
    unfold consumedOffsets
    cases h : fetch o with
    | error e => simp [h, ih]
    | ok records =>
      by_cases hlen : records.length = 0 <;> simp [h, hlen, ih]

/-- Total length of a concatenation of page blocks: pages are empty or of
length `p`, so the total is the number of non-empty pages times `p`. -/
theorem sum_page_lengths (p : Nat) (pages : Nat → List Record) :
    ∀ l : List Nat, (∀ o ∈ l, pages o = [] ∨ (pages o).length = p) →
      (l.map (fun o => (pages o).length)).sum =
        (l.filter (fun o => !(pages o).isEmpty)).length * p := by
  intro l
  induction l with
  | nil => intro _; simp
  | cons o rest ih =>
    intro h
    have hrest := ih (fun a ha => h a (List.mem_cons_of_mem o ha))
    by_cases hemp : pages o = []
    · simp [List.filter_cons, hemp, hrest]
    · have hlen : (pages o).length = p := by
        rcases h o (List.mem_cons_self o rest) with h0 | h0
        · exact absurd h0 hemp
        · exact h0
      have hne : (pages o).isEmpty = false := by
        simp [List.isEmpty_iff, hemp]
      simp only [List.map_cons, List.sum_cons, List.filter_cons, hne,
        Bool.not_false, if_pos, List.length_cons, hlen, hrest]
      ring

/-- Length of a flat concatenation of blocks is the sum of block lengths. -/
theorem length_flatMap_eq (l : List Nat) (pages : Nat → List Record) :
    (l.flatMap pages).length = (l.map (fun o => (pages o).length)).sum := by
  induction l with
  | nil => rfl
  | cons a t ih => simp [List.flatMap_cons, ih]

/-! Claim theorems. -/

/-- C1: on the date columns `Action_Filed` and `Sale_Date`, `formatValue`
maps the numeric value 0 to the empty string, maps any other numeric value
(epoch milliseconds) to whole seconds by truncating division by 1000 and
renders it in UTC in the layout `YYYY/MM/DD HH:MM:SS+00`; the millisecond
timestamp of 2021-03-15T00:00:00Z yields `2021/03/15 00:00:00+00`; and a
present non-numeric value on a date column falls through to the generic
stringification of step 3. -/
theorem formatValue_date (k : String) (hk : k = "Action_Filed" ∨ k = "Sale_Date")
    (n : Int) (hn : n ≠ 0) (v : GoValue) (hv : ∀ m : Int, v ≠ GoValue.num m)
    (hnil : v ≠ GoValue.nil) :
    formatValue k (GoValue.num 0) = "" ∧
    formatValue k (GoValue.num n) = goDateTimeString (n.tdiv 1000) ∧
    formatValue "Action_Filed" (GoValue.num 1615766400000) =
      "2021/03/15 00:00:00+00" ∧
    formatValue k v = sprintvCollapse v := by
  have hdate : (k == "Action_Filed" || k == "Sale_Date") = true := by
    rcases hk with rfl | rfl <;> decide
  refine ⟨?_, ?_, ?_, ?_⟩
  · simp [formatValue, hdate]
  · simp [formatValue, hdate, hn]
  · decide
  · cases v with
    | str s => simp [formatValue, hdate]
    | num m => exact absurd rfl (hv m)
    | boolean b => simp [formatValue, hdate]
    | nil => exact absurd rfl hnil

/-- Witness for C1 at `Sale_Date`, the one-day timestamp 86400000 ms, and a
present string value. -/
theorem formatValue_date_witness :
    formatValue "Sale_Date" (GoValue.num 0) = "" ∧
    formatValue "Sale_Date" (GoValue.num 86400000) =
      goDateTimeString ((86400000 : Int).tdiv 1000) ∧
    formatValue "Action_Filed" (GoValue.num 1615766400000) =
      "2021/03/15 00:00:00+00" ∧
    formatValue "Sale_Date" (GoValue.str "pending") =
      sprintvCollapse (GoValue.str "pending") :=
  formatValue_date "Sale_Date" (Or.inr rfl) 86400000 (by decide)
    (GoValue.str "pending") (fun m h => by cases h) (fun h => by cases h)

/-- C5: `formatValue` is pure and total: on every column name and every value
shape (string, number, boolean, nil) it returns a string, which is either
empty, the generic stringification of the value, or the date rendering of a
numeric value on a date column. -/
theorem formatValue_total (k : String) (v : GoValue) :
    formatValue k v = "" ∨ formatValue k v = goSprintV v ∨
    ∃ n : Int, v = GoValue.num n ∧
      formatValue k v = goDateTimeString (n.tdiv 1000) := by
  by_cases hnil : v = GoValue.nil
  · left; simp [formatValue, hnil]
  · by_cases hdate : (k == "Action_Filed" || k == "Sale_Date") = true
    · cases v with
      | num n =>
        by_cases hn : n = 0
        · left; simp [formatValue, hdate, hn]
        · right; right
          exact ⟨n, rfl, by simp [formatValue, hdate, hn]⟩
      | str s =>
        have : formatValue k (GoValue.str s) = sprintvCollapse (GoValue.str s) := by
          simp [formatValue, hdate]
        rcases sprintvCollapse_cases (GoValue.str s) with h | h
        · left; rw [this, h]
        · right; left; rw [this, h]
      | boolean b =>
        have : formatValue k (GoValue.boolean b) =
            sprintvCollapse (GoValue.boolean b) := by
          simp [formatValue, hdate]
        rcases sprintvCollapse_cases (GoValue.boolean b) with h | h
        · left; rw [this, h]
        · right; left; rw [this, h]
      | nil => exact absurd rfl hnil
    · have : formatValue k v = sprintvCollapse v := by
        simp [formatValue, hnil, hdate]
      rcases sprintvCollapse_cases v with h | h
      · left; rw [this, h]
      · right; left; rw [this, h]

/-- C6: an absent/nil value maps to the empty string on every column, and on
a non-date column a present value whose generic stringification is the
literal `<nil>` marker also collapses to the empty string. -/
theorem formatValue_nil_collapse (k knd : String) (v : GoValue)
    (hknd : ¬(knd = "Action_Filed" ∨ knd = "Sale_Date"))
    (hs : goSprintV v = "<nil>") :
    formatValue k GoValue.nil = "" ∧ formatValue knd v = "" := by
  have hdate : (knd == "Action_Filed" || knd == "Sale_Date") = false := by
    push_neg at hknd
    simp [hknd.1, hknd.2]
  refine ⟨by simp [formatValue], ?_⟩
  by_cases hnil : v = GoValue.nil
  · simp [formatValue, hnil]
  · simp [formatValue, hnil, hdate, sprintvCollapse, hs]

/-- Witness for C6 at the `Zip` column and the literal string value
`<nil>`. -/
theorem formatValue_nil_collapse_witness :
    formatValue "Action_Filed" GoValue.nil = "" ∧
    formatValue "Zip" (GoValue.str "<nil>") = "" :=
  formatValue_nil_collapse "Action_Filed" "Zip" (GoValue.str "<nil>")
    (by decide) rfl

/-- C10: for non-date columns a numeric value is rendered in Go's shortest
`%g` form, so the integer 1234567 (seven significant decimal digits, decimal
exponent 6) is written in scientific notation as `1.234567e+06`, not as a
plain integer string. -/
theorem formatValue_scientific :
    formatValue "Sale_Price" (GoValue.num 1234567) = "1.234567e+06" ∧
    formatValue "ObjectId" (GoValue.num 1234567) = "1.234567e+06" ∧
    goSprintV (GoValue.num 1234567) = "1.234567e+06" := by
  decide

/-- C2: the Writer produces exactly one output row per Attribute Record, in
dataset order; every row has exactly `len(csvHeaders)` cells; the i-th cell
is `formatValue(csvHeaders[i], record[csvHeaders[i]])`; and a column absent
from the record yields the empty string. -/
theorem writer_rows (ds : List Record) (i : Nat) (r : Record)
    (hi : ds[i]? = some r) (j : Nat) (k : String)
    (hj : csvHeaders[j]? = some k) :
    (dataRows ds).length = ds.length ∧
    (dataRows ds)[i]? = some (rowFor r) ∧
    (rowFor r).length = csvHeaders.length ∧
    (rowFor r)[j]? = some (formatValue k (mapGet r k)) ∧
    (List.lookup k r = none → (rowFor r)[j]? = some "") := by
  have hcell : (rowFor r)[j]? = some (formatValue k (mapGet r k)) := by
    unfold rowFor
    rw [List.getElem?_map, hj]
    rfl
  refine ⟨List.length_map ds rowFor, ?_, List.length_map csvHeaders _, hcell, ?_⟩
  · unfold dataRows
    rw [List.getElem?_map, hi]
    rfl
  · intro habs
    rw [hcell]
    have : mapGet r k = GoValue.nil := by
      unfold mapGet
      rw [habs]
    rw [this]
    simp [formatValue]

/-- Witness for C2 on a one-record dataset and the `Zip` column. -/
theorem writer_rows_witness :
    (dataRows [sampleRecord]).length = ([sampleRecord] : List Record).length ∧
    (dataRows [sampleRecord])[0]? = some (rowFor sampleRecord) ∧
    (rowFor sampleRecord).length = csvHeaders.length ∧
    (rowFor sampleRecord)[5]? =
      some (formatValue "Zip" (mapGet sampleRecord "Zip")) ∧
    (List.lookup "Zip" sampleRecord = none →
      (rowFor sampleRecord)[5]? = some "") :=
  writer_rows [sampleRecord] 0 sampleRecord rfl 5 "Zip" rfl

/-- C3: the Coordinator dispatches exactly the offsets `i * batchSize` for
`i = 0, …, maxBatches-1` — `maxBatches` distinct offsets, independent of any
fetch outcome — and the worker loop still consumes every one of them
whatever each fetch returns: an empty page does not short-circuit the
remaining offsets. -/
theorem coordinator_offsets (fetch : Nat → Except FetchError (List Record))
    (i : Nat) (hi : i < maxBatches) :
    dispatchedOffsets.length = maxBatches ∧
    dispatchedOffsets[i]? = some (i * batchSize) ∧
    dispatchedOffsets.Nodup ∧
    consumedOffsets fetch dispatchedOffsets = dispatchedOffsets := by
  refine ⟨?_, ?_, ?_, consumedOffsets_eq fetch dispatchedOffsets⟩
  · simp [dispatchedOffsets]
  · unfold dispatchedOffsets
    rw [List.getElem?_map, List.getElem?_range hi]
    rfl
  · have hinj : Function.Injective fun i : Nat => i * batchSize := by
      intro a b hab
      exact Nat.eq_of_mul_eq_mul_right (by decide) hab
    exact (List.nodup_range maxBatches).map hinj

/-- Witness for C3 at the last dispatched index and a fetch that always
returns an empty page. -/
theorem coordinator_offsets_witness :
    dispatchedOffsets.length = maxBatches ∧
    dispatchedOffsets[299]? = some (299 * batchSize) ∧
    dispatchedOffsets.Nodup ∧
    consumedOffsets (fun _ => Except.ok []) dispatchedOffsets =
      dispatchedOffsets :=
  coordinator_offsets (fun _ => Except.ok []) 299 (by decide)

/-- C4: when any data was fetched the Writer's file starts with exactly one
header row equal to the fixed 18-entry Canonical Column Schema in its
defined order, independent of the keys of any record. -/
theorem writer_header (ds : List Record) (h : ds ≠ []) :
    (mainOutput ds).1 = some (csvHeaders :: dataRows ds) ∧
    (csvHeaders :: dataRows ds).head? = some csvHeaders ∧
    csvHeaders.length = 18 ∧
    csvHeaders = ["House_Nr", "Dir", "Street_Name", "St_Type", "Post_Dir",
      "Zip", "L_S", "CD", "Neighborhood", "Full_Parcel_ID", "Census_Tract",
      "Action_Filed", "Case_", "Case_Style", "Sale_Date", "Sale_Price",
      "Purchaser", "ObjectId"] := by
  have hlen : ds.length > 0 := List.length_pos.mpr h
  exact ⟨by simp [mainOutput, hlen], rfl, rfl, rfl⟩

/-- Witness for C4 on a one-record dataset. -/
theorem writer_header_witness :
    (mainOutput [sampleRecord]).1 =
      some (csvHeaders :: dataRows [sampleRecord]) ∧
    (csvHeaders :: dataRows [sampleRecord]).head? = some csvHeaders ∧
    csvHeaders.length = 18 ∧
    csvHeaders = ["House_Nr", "Dir", "Street_Name", "St_Type", "Post_Dir",
      "Zip", "L_S", "CD", "Neighborhood", "Full_Parcel_ID", "Census_Tract",
      "Action_Filed", "Case_", "Case_Style", "Sale_Date", "Sale_Price",
      "Purchaser", "ObjectId"] :=
  writer_header [sampleRecord] (List.cons_ne_nil _ _)

/-- C7: under concurrent accumulation — the final dataset is the mutex-order
concatenation of the per-offset record blocks, i.e. the blocks in some
permutation of the dispatched offsets — no records are lost or duplicated:
when the service returns deterministic fixed content per offset, each page
empty or of exactly `p` records, the total record count equals the number of
non-empty pages times `p`, for every worker count and schedule. -/
theorem concurrent_append_count (pages : Nat → List Record) (p : Nat)
    (sched : List Nat) (hperm : sched.Perm dispatchedOffsets)
    (hfull : ∀ o ∈ dispatchedOffsets, pages o = [] ∨ (pages o).length = p) :
    (sched.flatMap pages).length =
      (dispatchedOffsets.filter (fun o => !(pages o).isEmpty)).length * p := by
  rw [length_flatMap_eq]
  rw [(hperm.map (fun o => (pages o).length)).sum_eq]
  exact sum_page_lengths p pages dispatchedOffsets hfull

/-- Witness for C7 with pages of size 3 on the first offset only and a
reversed (out-of-dispatch-order) schedule. -/
theorem concurrent_append_count_witness :
    (dispatchedOffsets.reverse.flatMap
        (fun o => if o = 0 then [sampleRecord, sampleRecord, sampleRecord]
          else [])).length =
      (dispatchedOffsets.filter
        (fun o => !(if o = 0 then [sampleRecord, sampleRecord, sampleRecord]
          else ([] : List Record)).isEmpty)).length * 3 :=
  concurrent_append_count
    (fun o => if o = 0 then [sampleRecord, sampleRecord, sampleRecord] else [])
    3 dispatchedOffsets.reverse (List.reverse_perm dispatchedOffsets)
    (fun o _ => by
      by_cases h : o = 0
      · right; simp [h]
      · left; simp [h])

/-- C8: one invocation of `fetchBatch` is all-or-nothing: it either fails
with a distinct signal (network, status, or decode) and emits no records —
which happens exactly when the response is not a well-formed 200 reply — or
it succeeds returning exactly the per-feature attribute mappings of the
response's feature list, discarding the rest of each feature. -/
theorem fetchBatch_all_or_nothing (offset : Nat) (service : Nat → HttpResponse) :
    (∃ e : FetchError, fetchBatch offset service = Except.error e ∧
      ∀ q : QueryResult,
        service offset ≠ HttpResponse.reply 200 (Except.ok q)) ∨
    (∃ q : QueryResult, service offset = HttpResponse.reply 200 (Except.ok q) ∧
      fetchBatch offset service =
        Except.ok (q.features.map Feature.attributes)) := by
  unfold fetchBatch
  cases hresp : service offset with
  | netError m =>
    exact Or.inl ⟨FetchError.network m, rfl, fun q h => by cases h⟩
  | reply code body =>
    by_cases hcode : code = 200
    · subst hcode
      cases body with
      | error m =>
        refine Or.inl ⟨FetchError.decode m, by simp, ?_⟩
        intro q h
        cases h
      | ok q =>
        exact Or.inr ⟨q, rfl, by simp⟩
    · refine Or.inl ⟨FetchError.status code, by simp [hcode], ?_⟩
      intro q h
      cases h
      exact hcode rfl

/-- C9: with an empty finalized dataset the program writes no file and emits
the distinct no-data notice; with a non-empty dataset it writes the file and
emits the summary with the record count and the output path. -/
theorem output_empty_vs_nonempty (ds : List Record) :
    (ds = [] →
      (mainOutput ds).1 = none ∧
      (mainOutput ds).2 = ["Fetched " ++ toString ds.length ++
          " total records.",
        "⚠️ No data was retrieved from the API."]) ∧
    (ds ≠ [] →
      (∃ rows, (mainOutput ds).1 = some rows) ∧
      (mainOutput ds).2 = ["Fetched " ++ toString ds.length ++
          " total records.",
        "✅ Data saved to " ++ outputPath]) := by
  constructor
  · intro h
    subst h
    exact ⟨rfl, rfl⟩
  · intro h
    have hlen : ds.length > 0 := List.length_pos.mpr h
    exact ⟨⟨csvHeaders :: dataRows ds, by simp [mainOutput, hlen]⟩,
      by simp [mainOutput, hlen]⟩

/-- Witness for C9 at the empty dataset and a one-record dataset. -/
theorem output_empty_vs_nonempty_witness :
    ((mainOutput ([] : List Record)).1 = none ∧
      (mainOutput ([] : List Record)).2 =
        ["Fetched " ++ toString ([] : List Record).length ++
            " total records.",
          "⚠️ No data was retrieved from the API."]) ∧
    ((∃ rows, (mainOutput [sampleRecord]).1 = some rows) ∧
      (mainOutput [sampleRecord]).2 =
        ["Fetched " ++ toString ([sampleRecord] : List Record).length ++
            " total records.",
          "✅ Data saved to " ++ outputPath]) :=
  ⟨(output_empty_vs_nonempty []).1 rfl,
    (output_empty_vs_nonempty [sampleRecord]).2 (List.cons_ne_nil _ _)⟩

end CYProject
